import Mathlib

/-!
Shallow embedding of the configuration-resolution component of the
user-management-api repository (internal/config/config.go and cmd/main.go as
given in docs/guides/01-configuration-management.md).

Conventions of the embedding:
* The process environment is a total function `String → String`, mirroring
  `os.Getenv`, which returns the empty string for an unset variable.  Viper's
  default behaviour (AllowEmptyEnv = false) treats an empty environment value
  as unset, which `lookupEnv` encodes.
* A configuration file is `FileState`: absent, present-but-malformed, or
  parsed into an association list of dotted keys to values.
* Machine values carried by viper are `CVal`: either a string (all
  environment-variable values enter as strings) or an integer (YAML integers
  and integer defaults).
* Errors are the spec's taxonomy of kinds; the Go code returns `error` values
  whose construction sites correspond one-to-one to these kinds.
-/

/-- A configuration value as held by viper: a string or an integer. -/
inductive CVal where
  | str (s : String)
  | int (n : Int)
deriving DecidableEq

/-- State of the configuration file named by the config path:
absent, present but unparseable, or parsed key/value entries. -/
inductive FileState where
  | missing
  | malformed
  | parsed (entries : List (String × CVal))
deriving DecidableEq

/-- Error kinds of the configuration component, one per `error` construction
site in config.go / spec taxonomy. -/
inductive ConfigErrKind where
  | fileParseError
  | typeConversion
  | insecureSecret
  | unsafeLogLevel
  | unsafeDatabaseHost
  | unknownEnvironment
deriving DecidableEq

/-- ServerConfig from config.go. -/
structure ServerConfig where
  host : String
  port : String
  read_timeout : Int
  write_timeout : Int
  idle_timeout : Int
deriving DecidableEq

/-- DatabaseConfig from config.go. -/
structure DatabaseConfig where
  host : String
  port : Int
  user : String
  password : String
  dbname : String
  sslmode : String
deriving DecidableEq

/-- JWTConfig from config.go. -/
structure JWTConfig where
  secret : String
  expiration_time : Int
deriving DecidableEq

/-- LoggerConfig from config.go. -/
structure LoggerConfig where
  level : String
  format : String
deriving DecidableEq

/-- Config from config.go: the aggregate configuration record. -/
structure Config where
  server : ServerConfig
  database : DatabaseConfig
  jwt : JWTConfig
  logger : LoggerConfig
deriving DecidableEq

/-- The defaults registered by `setDefaults` in config.go, in source order. -/
def defaultsList : List (String × CVal) :=
  [("server.host", .str "localhost"),
   ("server.port", .str "3000"),
   ("server.read_timeout", .int 30),
   ("server.write_timeout", .int 30),
   ("server.idle_timeout", .int 60),
   ("database.host", .str "localhost"),
   ("database.port", .int 5432),
   ("database.user", .str "postgres"),
   ("database.password", .str ""),
   ("database.dbname", .str "user_management"),
   ("database.sslmode", .str "disable"),
   ("jwt.secret", .str "your-secret-key-change-in-production"),
   ("jwt.expiration_time", .int 24),
   ("logger.level", .str "info"),
   ("logger.format", .str "json")]

/-- All configuration keys (the domain of the defaults map). -/
def configKeys : List String :=
  ["server.host", "server.port", "server.read_timeout", "server.write_timeout",
   "server.idle_timeout", "database.host", "database.port", "database.user",
   "database.password", "database.dbname", "database.sslmode", "jwt.secret",
   "jwt.expiration_time", "logger.level", "logger.format"]

/-- The keys whose struct field in Config is declared `int`. -/
def intConfigKeys : List String :=
  ["server.read_timeout", "server.write_timeout", "server.idle_timeout",
   "database.port", "jwt.expiration_time"]

/-- Environment-variable name for a configuration key: viper's
`SetEnvKeyReplacer(strings.NewReplacer(".", "_"))` composed with
`AutomaticEnv`'s upper-casing — each dot becomes an underscore and letters are
upper-cased. -/
def envVarName (k : String) : String :=
  String.mk (k.toList.map (fun c => if c = '.' then '_' else c.toUpper))

/-- Viper's environment lookup under its default AllowEmptyEnv = false: an
unset or empty variable yields no override. -/
def lookupEnv (os : String → String) (n : String) : Option String :=
  if os n = "" then none else some (os n)

/-- Lookup of a key in the parsed configuration file. -/
def FileState.lookupKey : FileState → String → Option CVal
  | .missing, _ => none
  | .malformed, _ => none
  | .parsed entries, k => List.lookup k entries

/-- Viper's per-key precedence: environment variable, then file entry, then
registered default. -/
def resolveRaw (os : String → String) (file : FileState) (k : String) : CVal :=
  match lookupEnv os (envVarName k) with
  | some s => .str s
  | none =>
    match file.lookupKey k with
    | some v => v
    | none => (List.lookup k defaultsList).getD (.str "")

/-- Cast of a viper value to a string struct field (cast.ToString semantics). -/
def CVal.asStr : CVal → String
  | .str s => s
  | .int n => toString n

/-- Cast of a viper value to an integer struct field; a non-numeric string
fails the cast. -/
def CVal.asInt : CVal → Option Int
  | .int n => some n
  | .str s => s.toInt?

/-- Resolved value of a string-typed key. -/
def strKeyVal (os : String → String) (file : FileState) (k : String) : String :=
  (resolveRaw os file k).asStr

/-- Resolved value of an int-typed key; `none` is a failed type conversion. -/
def intKeyVal (os : String → String) (file : FileState) (k : String) : Option Int :=
  (resolveRaw os file k).asInt

/-- `viper.Unmarshal` of the merged settings into the Config struct: each
int-typed field must convert, string fields always do. -/
def unmarshalConfig (os : String → String) (file : FileState) : Option Config :=
  match intKeyVal os file "server.read_timeout", intKeyVal os file "server.write_timeout",
        intKeyVal os file "server.idle_timeout", intKeyVal os file "database.port",
        intKeyVal os file "jwt.expiration_time" with
  | some rt, some wt, some it, some dp, some je =>
    some
      { server :=
          { host := strKeyVal os file "server.host",
            port := strKeyVal os file "server.port",
            read_timeout := rt, write_timeout := wt, idle_timeout := it },
        database :=
          { host := strKeyVal os file "database.host", port := dp,
            user := strKeyVal os file "database.user",
            password := strKeyVal os file "database.password",
            dbname := strKeyVal os file "database.dbname",
            sslmode := strKeyVal os file "database.sslmode" },
        jwt :=
          { secret := strKeyVal os file "jwt.secret", expiration_time := je },
        logger :=
          { level := strKeyVal os file "logger.level",
            format := strKeyVal os file "logger.format" } }
  | _, _, _, _, _ => none

/-- LoadConfig from config.go: a malformed file aborts at `ReadInConfig`; a
missing file is tolerated; then the merged settings are unmarshalled. -/
def LoadConfig (os : String → String) (file : FileState) : Except ConfigErrKind Config :=
  match file with
  | .malformed => .error .fileParseError
  | f =>
    match unmarshalConfig os f with
    | some cfg => .ok cfg
    | none => .error .typeConversion

/-- Containment test on character lists (`strings.Contains` on code points). -/
def charsContain (pat : List Char) : List Char → Bool
  | [] => pat.isEmpty
  | c :: rest => pat.isPrefixOf (c :: rest) || charsContain pat rest

/-- `strings.Contains s sub`. -/
def strContains (s sub : String) : Bool :=
  charsContain sub.toList s.toList

/-- validateProductionConfig from config.go, with each `errors.New` site mapped
to its spec error kind.  Note the guard of the database-host check is written
exactly as in the source: `strings.Contains(host, "localhost") && host !=
"localhost"`. -/
def validateProductionConfig (cfg : Config) : Except ConfigErrKind Unit :=
  if cfg.jwt.secret = "your-secret-key-change-in-production" then
    .error .insecureSecret
  else if strContains cfg.database.host "localhost" && cfg.database.host != "localhost" then
    .error .unsafeDatabaseHost
  else if cfg.logger.level = "debug" then
    .error .unsafeLogLevel
  else
    .ok ()

/-- validateNonProductionConfig from config.go: always nil. -/
def validateNonProductionConfig (_cfg : Config) : Except ConfigErrKind Unit :=
  .ok ()

/-- ValidateConfig from config.go: dispatch on the environment name. -/
def ValidateConfig (cfg : Config) (env : String) : Except ConfigErrKind Unit :=
  if env = "production" then validateProductionConfig cfg
  else if env = "development" || env = "staging" then validateNonProductionConfig cfg
  else .error .unknownEnvironment

/-- Resolve: the load-then-validate pipeline of cmd/main.go (steps 2 and 3). -/
def Resolve (env : String) (os : String → String) (file : FileState) :
    Except ConfigErrKind Config := do
  let cfg ← LoadConfig os file
  let _ ← ValidateConfig cfg env
  pure cfg

/-- Observation map from the Config struct back to dotted-key language: the
value the struct holds for each configuration key. -/
def getKey (cfg : Config) (k : String) : Option CVal :=
  if k = "server.host" then some (.str cfg.server.host)
  else if k = "server.port" then some (.str cfg.server.port)
  else if k = "server.read_timeout" then some (.int cfg.server.read_timeout)
  else if k = "server.write_timeout" then some (.int cfg.server.write_timeout)
  else if k = "server.idle_timeout" then some (.int cfg.server.idle_timeout)
  else if k = "database.host" then some (.str cfg.database.host)
  else if k = "database.port" then some (.int cfg.database.port)
  else if k = "database.user" then some (.str cfg.database.user)
  else if k = "database.password" then some (.str cfg.database.password)
  else if k = "database.dbname" then some (.str cfg.database.dbname)
  else if k = "database.sslmode" then some (.str cfg.database.sslmode)
  else if k = "jwt.secret" then some (.str cfg.jwt.secret)
  else if k = "jwt.expiration_time" then some (.int cfg.jwt.expiration_time)
  else if k = "logger.level" then some (.str cfg.logger.level)
  else if k = "logger.format" then some (.str cfg.logger.format)
  else none

/-- Conversion of an environment-variable string to the declared type of the
key's struct field. -/
def coerceForKey (k : String) (s : String) : Option CVal :=
  if k ∈ intConfigKeys then (s.toInt?).map CVal.int else some (.str s)

/-- The Config holding exactly the values of `setDefaults`. -/
def defaultConfig : Config :=
  { server :=
      { host := "localhost", port := "3000",
        read_timeout := 30, write_timeout := 30, idle_timeout := 60 },
    database :=
      { host := "localhost", port := 5432, user := "postgres",
        password := "", dbname := "user_management", sslmode := "disable" },
    jwt :=
      { secret := "your-secret-key-change-in-production", expiration_time := 24 },
    logger := { level := "info", format := "json" } }

/-- State of the `.env` file consumed by godotenv in non-production mode. -/
inductive DotenvState where
  | missing
  | present (vars : List (String × String))
deriving DecidableEq

/-- Outcome of the startup sequence of cmd/main.go, up to the point where the
server would begin listening. -/
inductive StartOutcome where
  | panicked (m : String)
  | fatalLoad (e : ConfigErrKind)
  | fatalValidation (e : ConfigErrKind)
  | serving (cfg : Config) (env : String)
deriving DecidableEq

/-- The environment variables that setupProductionEnvironment in cmd/main.go
requires, in source order. -/
def requiredEnvVars : List String :=
  ["DATABASE_HOST", "DATABASE_PASSWORD", "JWT_SECRET"]

/-- setupProductionEnvironment from cmd/main.go: the first required variable
whose `os.Getenv` value is empty triggers `log.Panicf`; `some v` is the panic
on variable `v`, `none` means the checks passed. -/
def setupProductionEnvironment (os : String → String) : Option String :=
  requiredEnvVars.findSome? (fun v => if os v = "" then some v else none)

/-- setupNonProductionEnvironment from cmd/main.go: `godotenv.Load` panics if
the `.env` file is missing, otherwise sets each `.env` entry that is not
already present in the process environment; then `APP_ENV` must be non-empty.
Returns the updated environment or the panic message. -/
def setupNonProductionEnvironment (os : String → String) (dotenv : DotenvState) :
    Except String (String → String) :=
  match dotenv with
  | .missing => .error "Non-production environment requires .env file"
  | .present vars =>
    let os2 := fun n => if os n = "" then ((List.lookup n vars).getD "") else os n
    if os2 "APP_ENV" = "" then .error "APP_ENV must be set in .env file"
    else .ok os2

/-- Steps 2 and 3 of main: load the configuration, then validate it for the
environment; `log.Fatalf` on either failure. -/
def loadAndValidate (os : String → String) (env : String) (file : FileState) :
    StartOutcome :=
  match LoadConfig os file with
  | .error e => .fatalLoad e
  | .ok cfg =>
    match ValidateConfig cfg env with
    | .error e => .fatalValidation e
    | .ok _ => .serving cfg env

/-- The startup sequence of main in cmd/main.go: environment detection and
setup (production-first), then configuration loading and validation. -/
def mainStartup (os : String → String) (dotenv : DotenvState) (file : FileState) :
    StartOutcome :=
  let env := os "APP_ENV"
  if env = "production" then
    match setupProductionEnvironment os with
    | some v =>
        .panicked ("Production requires " ++ v ++ " to be set as OS environment variable")
    | none => loadAndValidate os env file
  else
    match setupNonProductionEnvironment os dotenv with
    | .error m => .panicked m
    | .ok os2 => loadAndValidate os2 (os2 "APP_ENV") file

instance {ε α : Type} [DecidableEq ε] [DecidableEq α] : DecidableEq (Except ε α) :=
  fun a b =>
    match a, b with
    | .ok x, .ok y =>
        decidable_of_iff (x = y) ⟨fun h => h ▸ rfl, fun h => by injection h⟩
    | .error x, .error y =>
        decidable_of_iff (x = y) ⟨fun h => h ▸ rfl, fun h => by injection h⟩
    | .ok _, .error _ => isFalse (fun h => by injection h)
    | .error _, .ok _ => isFalse (fun h => by injection h)

/-- Helper: a successful load reduces Resolve to the validation step. -/
theorem resolve_load_ok {env : String} {os : String → String} {file : FileState}
    {cfg : Config} (h : LoadConfig os file = .ok cfg) :
    Resolve env os file =
      (match ValidateConfig cfg env with
       | .ok _ => .ok cfg
       | .error e => .error e) := by
  unfold Resolve
  rw [h]
  cases hv : ValidateConfig cfg env <;>
    simp [Bind.bind, Except.bind, hv, Pure.pure, Except.pure]

/-- Production config used to exhibit the inverted database-host guard: the
defaults (database.host = "localhost") with a non-placeholder JWT secret. -/
def c1ProductionConfig : Config :=
  { defaultConfig with
    jwt := { secret := "a-strong-production-secret", expiration_time := 24 } }

/-- Environment providing only a production JWT secret. -/
def c1OsEnv : String → String :=
  fun n => if n = "JWT_SECRET" then "a-strong-production-secret" else ""

/-- C1: the code's database-host guard is inverted.  A production
configuration whose database.host is exactly "localhost" passes
validateProductionConfig (and the whole Resolve pipeline), while a host that
merely contains "localhost" as a substring — hence is not the loopback
literal — is rejected with UnsafeDatabaseHost.  This contradicts both the
claim and the code's own error message. -/
theorem production_localhost_guard_inverted :
    c1ProductionConfig.database.host = "localhost" ∧
    validateProductionConfig c1ProductionConfig = .ok () ∧
    Resolve "production" c1OsEnv .missing = .ok c1ProductionConfig ∧
    validateProductionConfig
      { c1ProductionConfig with
        database := { c1ProductionConfig.database with host := "localhost.db.internal" } } =
      .error .unsafeDatabaseHost := by
  refine ⟨rfl, by decide, by decide, by decide⟩

/-- C4: whenever loading succeeds and the loaded JWT secret still equals the
placeholder default, production resolution fails with InsecureSecret, and
when the secret differs from the placeholder this error is never produced. -/
theorem production_placeholder_secret_rejected :
    ∀ (os : String → String) (file : FileState) (cfg : Config),
      LoadConfig os file = .ok cfg →
      (cfg.jwt.secret = "your-secret-key-change-in-production" →
        Resolve "production" os file = .error .insecureSecret) ∧
      (cfg.jwt.secret ≠ "your-secret-key-change-in-production" →
        Resolve "production" os file ≠ .error .insecureSecret) := by
  intro os file cfg h
  constructor
  · intro hs
    rw [resolve_load_ok h]
    simp [ValidateConfig, validateProductionConfig, hs]
  · intro hs
    have hval : ValidateConfig cfg "production" ≠ .error .insecureSecret := by
      unfold ValidateConfig validateProductionConfig
      rw [if_pos rfl, if_neg hs]
      split
      · simp
      · split <;> simp
    rw [resolve_load_ok h]
    rcases hv2 : ValidateConfig cfg "production" with e | u
    · intro hcontra
      injection hcontra with h1
      exact hval (by rw [hv2, h1])
    · simp

/-- C4 witness: with no overrides at all, the defaults keep the placeholder
secret and production resolution fails with InsecureSecret. -/
theorem production_placeholder_secret_rejected_witness :
    Resolve "production" (fun _ => "") .missing = .error .insecureSecret :=
  (production_placeholder_secret_rejected (fun _ => "") .missing defaultConfig
    (by decide)).1 (by decide)

/-- C5: in the development and staging environments validation always
succeeds (the production-only checks are skipped), so any configuration that
loads — in particular one keeping the placeholder secret — resolves. -/
theorem nonproduction_validation_skipped :
    ∀ env : String, (env = "development" ∨ env = "staging") →
      (∀ cfg : Config, ValidateConfig cfg env = .ok ()) ∧
      (∀ (os : String → String) (file : FileState) (cfg : Config),
        LoadConfig os file = .ok cfg → Resolve env os file = .ok cfg) := by
  intro env henv
  have hv : ∀ cfg : Config, ValidateConfig cfg env = .ok () := by
    intro cfg
    rcases henv with rfl | rfl <;> simp [ValidateConfig, validateNonProductionConfig]
  refine ⟨hv, ?_⟩
  intro os file cfg h
  rw [resolve_load_ok h, hv cfg]

/-- C5 witness: the pure defaults, placeholder secret included, resolve
successfully in the development environment. -/
theorem nonproduction_validation_skipped_witness :
    Resolve "development" (fun _ => "") .missing = .ok defaultConfig :=
  (nonproduction_validation_skipped "development" (Or.inl rfl)).2
    (fun _ => "") .missing defaultConfig (by decide)

/-- Helper: a successful LoadConfig means unmarshalling succeeded. -/
theorem loadConfig_ok_unmarshal {os : String → String} {file : FileState} {cfg : Config}
    (h : LoadConfig os file = .ok cfg) : unmarshalConfig os file = some cfg := by
  cases file with
  | malformed => simp [LoadConfig] at h
  | missing =>
    simp only [LoadConfig] at h
    rcases hu : unmarshalConfig os .missing with _ | cfg2 <;> rw [hu] at h
    · simp at h
    · injection h with h2
      rw [← h2]
  | parsed entries =>
    simp only [LoadConfig] at h
    rcases hu : unmarshalConfig os (.parsed entries) with _ | cfg2 <;> rw [hu] at h
    · simp at h
    · injection h with h2
      rw [← h2]

/-- Helper: the shape of a successfully loaded configuration — every string
field holds its resolved string value and every int field a successfully
converted int value. -/
theorem load_ok_shape {os : String → String} {file : FileState} {cfg : Config}
    (h : LoadConfig os file = .ok cfg) :
    ∃ rt wt it dp je,
      intKeyVal os file "server.read_timeout" = some rt ∧
      intKeyVal os file "server.write_timeout" = some wt ∧
      intKeyVal os file "server.idle_timeout" = some it ∧
      intKeyVal os file "database.port" = some dp ∧
      intKeyVal os file "jwt.expiration_time" = some je ∧
      cfg =
        { server :=
            { host := strKeyVal os file "server.host",
              port := strKeyVal os file "server.port",
              read_timeout := rt, write_timeout := wt, idle_timeout := it },
          database :=
            { host := strKeyVal os file "database.host", port := dp,
              user := strKeyVal os file "database.user",
              password := strKeyVal os file "database.password",
              dbname := strKeyVal os file "database.dbname",
              sslmode := strKeyVal os file "database.sslmode" },
          jwt := { secret := strKeyVal os file "jwt.secret", expiration_time := je },
          logger :=
            { level := strKeyVal os file "logger.level",
              format := strKeyVal os file "logger.format" } } := by
  have hu := loadConfig_ok_unmarshal h
  unfold unmarshalConfig at hu
  split at hu
  · rename_i rt wt it dp je hrt hwt hit hdp hje
    injection hu with h2
    exact ⟨rt, wt, it, dp, je, hrt, hwt, hit, hdp, hje, h2.symm⟩
  · simp at hu

/-- C2: for every configuration key, a non-empty corresponding environment
variable determines the value the loaded configuration holds for that key —
regardless of the file contents and of the defaults. -/
theorem env_var_highest_priority :
    ∀ k ∈ configKeys, ∀ (os : String → String) (file : FileState) (cfg : Config),
      os (envVarName k) ≠ "" →
      LoadConfig os file = .ok cfg →
      getKey cfg k = coerceForKey k (os (envVarName k)) := by
  intro k hk os file cfg hset hload
  obtain ⟨rt, wt, it, dp, je, hrt, hwt, hit, hdp, hje, hcfg⟩ := load_ok_shape hload
  subst hcfg
  have henv : lookupEnv os (envVarName k) = some (os (envVarName k)) := by
    simp [lookupEnv, hset]
  simp only [configKeys] at hk
  fin_cases hk <;>
    simp_all [getKey, coerceForKey, intConfigKeys, strKeyVal, intKeyVal,
      resolveRaw, CVal.asStr, CVal.asInt]

/-- Environment providing only SERVER_PORT, the spec's example scenario. -/
def c2Os : String → String :=
  fun n => if n = "SERVER_PORT" then "8080" else ""

/-- File supplying its own server.port, to be beaten by the environment. -/
def c2File : FileState := .parsed [("server.port", .str "3000")]

/-- The configuration c2Os and c2File load to: defaults with port 8080. -/
def c2Cfg : Config :=
  { defaultConfig with server := { defaultConfig.server with port := "8080" } }

/-- C2 witness: SERVER_PORT=8080 beats both the file value "3000" and the
default "3000". -/
theorem env_var_highest_priority_witness :
    getKey c2Cfg "server.port" = coerceForKey "server.port" (c2Os (envVarName "server.port")) :=
  env_var_highest_priority "server.port" (by decide) c2Os c2File c2Cfg
    (by decide) (by decide)

/-- C3: for every configuration key with neither a file entry nor a non-empty
environment variable, the loaded configuration holds the registered default;
and loading with no overrides at all yields exactly the all-defaults
configuration (every field concretely set). -/
theorem defaults_when_no_override :
    (∀ k ∈ configKeys, ∀ (os : String → String) (file : FileState) (cfg : Config),
      os (envVarName k) = "" →
      FileState.lookupKey file k = none →
      LoadConfig os file = .ok cfg →
      getKey cfg k = List.lookup k defaultsList) ∧
    LoadConfig (fun _ => "") .missing = .ok defaultConfig := by
  constructor
  · intro k hk os file cfg hunset hfile hload
    obtain ⟨rt, wt, it, dp, je, hrt, hwt, hit, hdp, hje, hcfg⟩ := load_ok_shape hload
    subst hcfg
    have henv : lookupEnv os (envVarName k) = none := by
      simp [lookupEnv, hunset]
    simp only [configKeys] at hk
    fin_cases hk <;>
      simp_all [getKey, strKeyVal, intKeyVal, resolveRaw, CVal.asStr, CVal.asInt,
        defaultsList, List.lookup]
  · decide

/-- C3 witness: with no file and no environment variables, jwt.secret holds
its registered default. -/
theorem defaults_when_no_override_witness :
    getKey defaultConfig "jwt.secret" = List.lookup "jwt.secret" defaultsList :=
  defaults_when_no_override.1 "jwt.secret" (by decide) (fun _ => "") .missing
    defaultConfig (by decide) (by decide) (by decide)

/-- The value a key takes when only defaults and environment variables are in
play: a non-empty environment variable (converted to the declared field type)
or else the registered default. -/
def envOnlyExpected (os : String → String) (k : String) : Option CVal :=
  match lookupEnv os (envVarName k) with
  | some s => coerceForKey k s
  | none => List.lookup k defaultsList

/-- The environment variables of int-typed keys all convert (the spec's
separate TypeConversion failure mode does not fire). -/
def envIntsOk (os : String → String) : Prop :=
  ∀ k ∈ intConfigKeys, (intKeyVal os .missing k).isSome = true

/-- C7: a missing configuration file is tolerated — loading succeeds and
every key resolves to its environment-variable value or, failing that, its
registered default. -/
theorem missing_file_tolerated :
    ∀ os : String → String, envIntsOk os →
      ∃ cfg, LoadConfig os .missing = .ok cfg ∧
        ∀ k ∈ configKeys, getKey cfg k = envOnlyExpected os k := by
  intro os hok
  obtain ⟨rt, hrt⟩ := Option.isSome_iff_exists.mp (hok "server.read_timeout" (by decide))
  obtain ⟨wt, hwt⟩ := Option.isSome_iff_exists.mp (hok "server.write_timeout" (by decide))
  obtain ⟨it, hit⟩ := Option.isSome_iff_exists.mp (hok "server.idle_timeout" (by decide))
  obtain ⟨dp, hdp⟩ := Option.isSome_iff_exists.mp (hok "database.port" (by decide))
  obtain ⟨je, hje⟩ := Option.isSome_iff_exists.mp (hok "jwt.expiration_time" (by decide))
  refine
    ⟨{ server :=
         { host := strKeyVal os .missing "server.host",
           port := strKeyVal os .missing "server.port",
           read_timeout := rt, write_timeout := wt, idle_timeout := it },
       database :=
         { host := strKeyVal os .missing "database.host", port := dp,
           user := strKeyVal os .missing "database.user",
           password := strKeyVal os .missing "database.password",
           dbname := strKeyVal os .missing "database.dbname",
           sslmode := strKeyVal os .missing "database.sslmode" },
       jwt := { secret := strKeyVal os .missing "jwt.secret", expiration_time := je },
       logger :=
         { level := strKeyVal os .missing "logger.level",
           format := strKeyVal os .missing "logger.format" } }, ?_, ?_⟩
  · simp only [LoadConfig]
    unfold unmarshalConfig
    rw [hrt, hwt, hit, hdp, hje]
  · intro k hk
    simp only [configKeys] at hk
    fin_cases hk
    · by_cases hosk : os (envVarName "server.host") = "" <;>
        simp_all [getKey, envOnlyExpected, lookupEnv, coerceForKey, intConfigKeys,
          strKeyVal, intKeyVal, resolveRaw, CVal.asStr, CVal.asInt,
          FileState.lookupKey, defaultsList, List.lookup]
    · by_cases hosk : os (envVarName "server.port") = "" <;>
        simp_all [getKey, envOnlyExpected, lookupEnv, coerceForKey, intConfigKeys,
          strKeyVal, intKeyVal, resolveRaw, CVal.asStr, CVal.asInt,
          FileState.lookupKey, defaultsList, List.lookup]
    · by_cases hosk : os (envVarName "server.read_timeout") = "" <;>
        simp_all [getKey, envOnlyExpected, lookupEnv, coerceForKey, intConfigKeys,
          strKeyVal, intKeyVal, resolveRaw, CVal.asStr, CVal.asInt,
          FileState.lookupKey, defaultsList, List.lookup]
    · by_cases hosk : os (envVarName "server.write_timeout") = "" <;>
        simp_all [getKey, envOnlyExpected, lookupEnv, coerceForKey, intConfigKeys,
          strKeyVal, intKeyVal, resolveRaw, CVal.asStr, CVal.asInt,
          FileState.lookupKey, defaultsList, List.lookup]
    · by_cases hosk : os (envVarName "server.idle_timeout") = "" <;>
        simp_all [getKey, envOnlyExpected, lookupEnv, coerceForKey, intConfigKeys,
          strKeyVal, intKeyVal, resolveRaw, CVal.asStr, CVal.asInt,
          FileState.lookupKey, defaultsList, List.lookup]
    · by_cases hosk : os (envVarName "database.host") = "" <;>
        simp_all [getKey, envOnlyExpected, lookupEnv, coerceForKey, intConfigKeys,
          strKeyVal, intKeyVal, resolveRaw, CVal.asStr, CVal.asInt,
          FileState.lookupKey, defaultsList, List.lookup]
    · by_cases hosk : os (envVarName "database.port") = "" <;>
        simp_all [getKey, envOnlyExpected, lookupEnv, coerceForKey, intConfigKeys,
          strKeyVal, intKeyVal, resolveRaw, CVal.asStr, CVal.asInt,
          FileState.lookupKey, defaultsList, List.lookup]
    · by_cases hosk : os (envVarName "database.user") = "" <;>
        simp_all [getKey, envOnlyExpected, lookupEnv, coerceForKey, intConfigKeys,
          strKeyVal, intKeyVal, resolveRaw, CVal.asStr, CVal.asInt,
          FileState.lookupKey, defaultsList, List.lookup]
    · by_cases hosk : os (envVarName "database.password") = "" <;>
        simp_all [getKey, envOnlyExpected, lookupEnv, coerceForKey, intConfigKeys,
          strKeyVal, intKeyVal, resolveRaw, CVal.asStr, CVal.asInt,
          FileState.lookupKey, defaultsList, List.lookup]
    · by_cases hosk : os (envVarName "database.dbname") = "" <;>
        simp_all [getKey, envOnlyExpected, lookupEnv, coerceForKey, intConfigKeys,
          strKeyVal, intKeyVal, resolveRaw, CVal.asStr, CVal.asInt,
          FileState.lookupKey, defaultsList, List.lookup]
    · by_cases hosk : os (envVarName "database.sslmode") = "" <;>
        simp_all [getKey, envOnlyExpected, lookupEnv, coerceForKey, intConfigKeys,
          strKeyVal, intKeyVal, resolveRaw, CVal.asStr, CVal.asInt,
          FileState.lookupKey, defaultsList, List.lookup]
    · by_cases hosk : os (envVarName "jwt.secret") = "" <;>
        simp_all [getKey, envOnlyExpected, lookupEnv, coerceForKey, intConfigKeys,
          strKeyVal, intKeyVal, resolveRaw, CVal.asStr, CVal.asInt,
          FileState.lookupKey, defaultsList, List.lookup]
    · by_cases hosk : os (envVarName "jwt.expiration_time") = "" <;>
        simp_all [getKey, envOnlyExpected, lookupEnv, coerceForKey, intConfigKeys,
          strKeyVal, intKeyVal, resolveRaw, CVal.asStr, CVal.asInt,
          FileState.lookupKey, defaultsList, List.lookup]
    · by_cases hosk : os (envVarName "logger.level") = "" <;>
        simp_all [getKey, envOnlyExpected, lookupEnv, coerceForKey, intConfigKeys,
          strKeyVal, intKeyVal, resolveRaw, CVal.asStr, CVal.asInt,
          FileState.lookupKey, defaultsList, List.lookup]
    · by_cases hosk : os (envVarName "logger.format") = "" <;>
        simp_all [getKey, envOnlyExpected, lookupEnv, coerceForKey, intConfigKeys,
          strKeyVal, intKeyVal, resolveRaw, CVal.asStr, CVal.asInt,
          FileState.lookupKey, defaultsList, List.lookup]

/-- C7 witness: with SERVER_PORT=8080 set and the file path nonexistent,
loading succeeds with defaults overridden by the environment only. -/
theorem missing_file_tolerated_witness :
    ∃ cfg, LoadConfig c2Os .missing = .ok cfg ∧
      ∀ k ∈ configKeys, getKey cfg k = envOnlyExpected c2Os k :=
  missing_file_tolerated c2Os (by unfold envIntsOk; decide)

/-- C6: a malformed configuration file makes loading — and hence resolution —
fail with FileParseError, for every environment name and every
environment-variable state. -/
theorem malformed_file_fatal :
    ∀ (env : String) (os : String → String),
      LoadConfig os .malformed = .error .fileParseError ∧
      Resolve env os .malformed = .error .fileParseError := by
  intro env os
  exact ⟨rfl, rfl⟩

/-- Helper: per-key resolution reads the environment only at the key's mapped
variable name. -/
theorem resolveRaw_env_congr {os1 os2 : String → String} {file : FileState} {k : String}
    (h : os1 (envVarName k) = os2 (envVarName k)) :
    resolveRaw os1 file k = resolveRaw os2 file k := by
  simp only [resolveRaw, lookupEnv, h]

/-- Helper: string-key resolution congruence in the environment. -/
theorem strKeyVal_env_congr {os1 os2 : String → String} {file : FileState} {k : String}
    (h : os1 (envVarName k) = os2 (envVarName k)) :
    strKeyVal os1 file k = strKeyVal os2 file k := by
  unfold strKeyVal
  rw [resolveRaw_env_congr h]

/-- Helper: int-key resolution congruence in the environment. -/
theorem intKeyVal_env_congr {os1 os2 : String → String} {file : FileState} {k : String}
    (h : os1 (envVarName k) = os2 (envVarName k)) :
    intKeyVal os1 file k = intKeyVal os2 file k := by
  unfold intKeyVal
  rw [resolveRaw_env_congr h]

/-- Helper: unmarshalling depends on the environment only at the mapped names
of the configuration keys. -/
theorem unmarshal_env_congr {os1 os2 : String → String} {file : FileState}
    (h : ∀ k ∈ configKeys, os1 (envVarName k) = os2 (envVarName k)) :
    unmarshalConfig os1 file = unmarshalConfig os2 file := by
  unfold unmarshalConfig
  simp only [intKeyVal_env_congr (h "server.read_timeout" (by decide)),
    intKeyVal_env_congr (h "server.write_timeout" (by decide)),
    intKeyVal_env_congr (h "server.idle_timeout" (by decide)),
    intKeyVal_env_congr (h "database.port" (by decide)),
    intKeyVal_env_congr (h "jwt.expiration_time" (by decide)),
    strKeyVal_env_congr (h "server.host" (by decide)),
    strKeyVal_env_congr (h "server.port" (by decide)),
    strKeyVal_env_congr (h "database.host" (by decide)),
    strKeyVal_env_congr (h "database.user" (by decide)),
    strKeyVal_env_congr (h "database.password" (by decide)),
    strKeyVal_env_congr (h "database.dbname" (by decide)),
    strKeyVal_env_congr (h "database.sslmode" (by decide)),
    strKeyVal_env_congr (h "jwt.secret" (by decide)),
    strKeyVal_env_congr (h "logger.level" (by decide)),
    strKeyVal_env_congr (h "logger.format" (by decide))]

/-- Helper: loading depends on the environment only at the mapped names. -/
theorem loadConfig_env_congr {os1 os2 : String → String} {file : FileState}
    (h : ∀ k ∈ configKeys, os1 (envVarName k) = os2 (envVarName k)) :
    LoadConfig os1 file = LoadConfig os2 file := by
  cases file with
  | malformed => rfl
  | missing =>
    simp only [LoadConfig]
    rw [unmarshal_env_congr h]
  | parsed entries =>
    simp only [LoadConfig]
    rw [unmarshal_env_congr h]

/-- C8: the environment variable consulted for each configuration key is the
key upper-cased with dots replaced by underscores (the full table is listed),
and two environments agreeing on those fifteen names make Resolve agree — so
a variable matching no key's mapped name overrides nothing. -/
theorem env_var_name_mapping :
    configKeys.map envVarName =
      ["SERVER_HOST", "SERVER_PORT", "SERVER_READ_TIMEOUT", "SERVER_WRITE_TIMEOUT",
       "SERVER_IDLE_TIMEOUT", "DATABASE_HOST", "DATABASE_PORT", "DATABASE_USER",
       "DATABASE_PASSWORD", "DATABASE_DBNAME", "DATABASE_SSLMODE", "JWT_SECRET",
       "JWT_EXPIRATION_TIME", "LOGGER_LEVEL", "LOGGER_FORMAT"] ∧
    ∀ (env : String) (file : FileState) (os1 os2 : String → String),
      (∀ k ∈ configKeys, os1 (envVarName k) = os2 (envVarName k)) →
      Resolve env os1 file = Resolve env os2 file := by
  refine ⟨by decide, ?_⟩
  intro env file os1 os2 h
  unfold Resolve
  rw [loadConfig_env_congr h]

/-- C8 witness: an environment differing only in a variable that is not the
mapped name of any key resolves identically to the empty environment. -/
theorem env_var_name_mapping_witness :
    Resolve "development" (fun _ => "") .missing =
      Resolve "development" (fun n => if n = "UNRELATED_VAR" then "x" else "") .missing :=
  env_var_name_mapping.2 "development" .missing
    (fun _ => "") (fun n => if n = "UNRELATED_VAR" then "x" else "") (by decide)

/-- C9: Resolve is deterministic — equal environment name, file state and
pointwise-equal environment-variable state give equal results. -/
theorem resolve_deterministic :
    ∀ (env : String) (file : FileState) (os1 os2 : String → String),
      (∀ n, os1 n = os2 n) →
      Resolve env os1 file = Resolve env os2 file := by
  intro env file os1 os2 h
  have h2 : os1 = os2 := funext h
  rw [h2]

/-- C9 witness: two syntactically different but pointwise-equal environments
resolve identically. -/
theorem resolve_deterministic_witness :
    Resolve "production" c1OsEnv .missing =
      Resolve "production"
        (fun n => if n = "JWT_SECRET" then "a-strong-production-secret" else "") .missing :=
  resolve_deterministic "production" .missing c1OsEnv
    (fun n => if n = "JWT_SECRET" then "a-strong-production-secret" else "")
    (fun _ => rfl)

/-- C10: with APP_ENV=production, an unset-or-empty DATABASE_HOST,
DATABASE_PASSWORD or JWT_SECRET makes startup panic on one of those required
variables, whatever the .env file and whatever the configuration file —
loading and validation are never reached. -/
theorem production_required_env_vars :
    ∀ os : String → String, os "APP_ENV" = "production" →
      (os "DATABASE_HOST" = "" ∨ os "DATABASE_PASSWORD" = "" ∨ os "JWT_SECRET" = "") →
      ∃ v ∈ requiredEnvVars, ∀ (dotenv : DotenvState) (file : FileState),
        mainStartup os dotenv file =
          .panicked ("Production requires " ++ v ++ " to be set as OS environment variable") := by
  intro os hprod hmiss
  by_cases h1 : os "DATABASE_HOST" = ""
  · refine ⟨"DATABASE_HOST", by decide, ?_⟩
    intro dotenv file
    have hsetup : setupProductionEnvironment os = some "DATABASE_HOST" := by
      simp [setupProductionEnvironment, requiredEnvVars, List.findSome?, h1]
    simp [mainStartup, hprod, hsetup]
  · by_cases h2 : os "DATABASE_PASSWORD" = ""
    · refine ⟨"DATABASE_PASSWORD", by decide, ?_⟩
      intro dotenv file
      have hsetup : setupProductionEnvironment os = some "DATABASE_PASSWORD" := by
        simp [setupProductionEnvironment, requiredEnvVars, List.findSome?, h1, h2]
      simp [mainStartup, hprod, hsetup]
    · have h3 : os "JWT_SECRET" = "" := by
        rcases hmiss with h | h | h
        · exact absurd h h1
        · exact absurd h h2
        · exact h
      refine ⟨"JWT_SECRET", by decide, ?_⟩
      intro dotenv file
      have hsetup : setupProductionEnvironment os = some "JWT_SECRET" := by
        simp [setupProductionEnvironment, requiredEnvVars, List.findSome?, h1, h2, h3]
      simp [mainStartup, hprod, hsetup]

/-- Environment for the C10 witness: production with nothing else set. -/
def c10Os : String → String := fun n => if n = "APP_ENV" then "production" else ""

/-- C10 witness: APP_ENV=production with no other variable set panics on a
required variable for every .env and configuration-file state. -/
theorem production_required_env_vars_witness :
    ∃ v ∈ requiredEnvVars, ∀ (dotenv : DotenvState) (file : FileState),
      mainStartup c10Os dotenv file =
        .panicked ("Production requires " ++ v ++ " to be set as OS environment variable") :=
  production_required_env_vars c10Os (by decide) (Or.inl (by decide))
